import Mathlib

/-!
Shallow embedding of the error module of the nextjs-auth0 repository
(src/errors/index.ts) and verification of its specification.

Each TypeScript error class becomes a Lean structure holding the fields
the constructor assigns (`code`, `message`, `name`, and `cause` where the
class declares one), and each `constructor` becomes a total function
`X.make` producing the structure.  TypeScript's nullish coalescing
`message ?? default` is modelled with `Option String` and `Option.getD`:
`none` stands for an absent (`undefined` or `null`) argument.  The string
literals are taken verbatim from the source, including its spelling.
-/

/-- Model of `class OAuth2Error extends SdkError`: fields assigned by its
constructor.  The `message` field models the inherited `Error.message`. -/
structure OAuth2Error where
  code : String
  message : String
  name : String
deriving DecidableEq, Repr

/-- `constructor(\x7b code, message \x7d)` of `OAuth2Error`:
`super(message ?? "An error occured while interacting with the authorization server.")`,
then `this.name = "OAuth2Error"; this.code = code`. -/
def OAuth2Error.make (code : String) (message : Option String) : OAuth2Error :=
  { code := code
  , message := Option.getD message
      "An error occured while interacting with the authorization server."
  , name := "OAuth2Error" }

/-- Model of `class DiscoveryError extends SdkError`. -/
structure DiscoveryError where
  code : String
  message : String
  name : String
deriving DecidableEq, Repr

/-- `constructor(message?)` of `DiscoveryError`. -/
def DiscoveryError.make (message : Option String) : DiscoveryError :=
  { code := "discovery_error"
  , message := Option.getD message
      "Discovery failed for the OpenID Connect configuration."
  , name := "DiscoveryError" }

/-- Model of `class MissingStateError extends SdkError`. -/
structure MissingStateError where
  code : String
  message : String
  name : String
deriving DecidableEq, Repr

/-- `constructor(message?)` of `MissingStateError`. -/
def MissingStateError.make (message : Option String) : MissingStateError :=
  { code := "missing_state"
  , message := Option.getD message "The state parameter is missing."
  , name := "MissingStateError" }

/-- Model of `class InvalidStateError extends SdkError`. -/
structure InvalidStateError where
  code : String
  message : String
  name : String
deriving DecidableEq, Repr

/-- `constructor(message?)` of `InvalidStateError`. -/
def InvalidStateError.make (message : Option String) : InvalidStateError :=
  { code := "invalid_state"
  , message := Option.getD message "The state parameter is invalid."
  , name := "InvalidStateError" }

/-- Model of `class AuthorizationError extends SdkError`: has a required
`cause: OAuth2Error` field. -/
structure AuthorizationError where
  code : String
  cause : OAuth2Error
  message : String
  name : String
deriving DecidableEq, Repr

/-- `constructor(\x7b cause, message \x7d)` of `AuthorizationError`. -/
def AuthorizationError.make (cause : OAuth2Error) (message : Option String) :
    AuthorizationError :=
  { code := "authorization_error"
  , cause := cause
  , message := Option.getD message
      "An error occured during the authorization flow."
  , name := "AuthorizationError" }

/-- Model of `class AuthorizationCodeGrantRequestError extends SdkError`. -/
structure AuthorizationCodeGrantRequestError where
  code : String
  message : String
  name : String
deriving DecidableEq, Repr

/-- `constructor(message?)` of `AuthorizationCodeGrantRequestError`. -/
def AuthorizationCodeGrantRequestError.make (message : Option String) :
    AuthorizationCodeGrantRequestError :=
  { code := "authorization_code_grant_request_error"
  , message := Option.getD message
      "An error occured while preparing or performing the authorization code grant request."
  , name := "AuthorizationCodeGrantRequestError" }

/-- Model of `class AuthorizationCodeGrantError extends SdkError`: has a
required `cause: OAuth2Error` field. -/
structure AuthorizationCodeGrantError where
  code : String
  cause : OAuth2Error
  message : String
  name : String
deriving DecidableEq, Repr

/-- `constructor(\x7b cause, message \x7d)` of `AuthorizationCodeGrantError`. -/
def AuthorizationCodeGrantError.make (cause : OAuth2Error)
    (message : Option String) : AuthorizationCodeGrantError :=
  { code := "authorization_code_grant_error"
  , cause := cause
  , message := Option.getD message
      "An error occured while trying to exchange the authorization code."
  , name := "AuthorizationCodeGrantError" }

/-- Model of `class BackchannelLogoutError extends SdkError`. -/
structure BackchannelLogoutError where
  code : String
  message : String
  name : String
deriving DecidableEq, Repr

/-- `constructor(message?)` of `BackchannelLogoutError`. -/
def BackchannelLogoutError.make (message : Option String) :
    BackchannelLogoutError :=
  { code := "backchannel_logout_error"
  , message := Option.getD message
      "An error occured while completing the backchannel logout request."
  , name := "BackchannelLogoutError" }

/-- Model of `enum AccessTokenErrorCode`. -/
inductive AccessTokenErrorCode where
  | MISSING_SESSION
  | MISSING_REFRESH_TOKEN
  | FAILED_TO_REFRESH_TOKEN
deriving DecidableEq, Repr

/-- The string value of each `AccessTokenErrorCode` member, as declared
in the TypeScript enum. -/
def AccessTokenErrorCode.toString : AccessTokenErrorCode → String
  | .MISSING_SESSION => "missing_session"
  | .MISSING_REFRESH_TOKEN => "missing_refresh_token"
  | .FAILED_TO_REFRESH_TOKEN => "failed_to_refresh_token"

/-- Model of `class AccessTokenError extends SdkError`: `code: string`,
optional `cause?: OAuth2Error`. -/
structure AccessTokenError where
  code : String
  message : String
  cause : Option OAuth2Error
  name : String
deriving DecidableEq, Repr

/-- `constructor(code, message, cause?)` of `AccessTokenError`: stores the
three arguments unchanged; the parameter type of `code` is `string`, not
the enum. -/
def AccessTokenError.make (code : String) (message : String)
    (cause : Option OAuth2Error) : AccessTokenError :=
  { code := code
  , message := message
  , cause := cause
  , name := "AccessTokenError" }

/-- Model of `enum AccessTokenForConnectionErrorCode`. -/
inductive AccessTokenForConnectionErrorCode where
  | MISSING_SESSION
  | MISSING_REFRESH_TOKEN
  | FAILED_TO_EXCHANGE
deriving DecidableEq, Repr

/-- The string value of each `AccessTokenForConnectionErrorCode` member,
as declared in the TypeScript enum. -/
def AccessTokenForConnectionErrorCode.toString :
    AccessTokenForConnectionErrorCode → String
  | .MISSING_SESSION => "missing_session"
  | .MISSING_REFRESH_TOKEN => "missing_refresh_token"
  | .FAILED_TO_EXCHANGE => "failed_to_exchange_refresh_token"

/-- Model of `class AccessTokenForConnectionError extends SdkError`. -/
structure AccessTokenForConnectionError where
  code : String
  message : String
  cause : Option OAuth2Error
  name : String
deriving DecidableEq, Repr

/-- `constructor(code, message, cause?)` of `AccessTokenForConnectionError`:
stores the three arguments unchanged. -/
def AccessTokenForConnectionError.make (code : String) (message : String)
    (cause : Option OAuth2Error) : AccessTokenForConnectionError :=
  { code := code
  , message := message
  , cause := cause
  , name := "AccessTokenForConnectionError" }

/-- Claim C1, counterexample: constructing `AccessTokenError` with code
`missing_session` and a supplied cause is neither forbidden nor ignored
by the constructor — the resulting instance carries the supplied cause. -/
theorem c1_counterexample :
    (AccessTokenError.make "missing_session" "The session is missing."
      (some (OAuth2Error.make "server_error" none))).code = "missing_session" ∧
    (AccessTokenError.make "missing_session" "The session is missing."
      (some (OAuth2Error.make "server_error" none))).cause
      = some (OAuth2Error.make "server_error" none) :=
  ⟨rfl, rfl⟩

/-- Claim C1 (amended): the `AccessTokenError` and
`AccessTokenForConnectionError` constructors store the supplied `code` and
`cause` unchanged for every combination of arguments; no coupling between
`code` and `cause` is enforced or checked by construction. -/
theorem c1_cause_stored_unconditionally (code message : String)
    (cause : Option OAuth2Error) :
    (AccessTokenError.make code message cause).cause = cause ∧
    (AccessTokenForConnectionError.make code message cause).cause = cause ∧
    (AccessTokenError.make code message cause).code = code ∧
    (AccessTokenForConnectionError.make code message cause).code = code :=
  ⟨rfl, rfl, rfl, rfl⟩

/-- Claim C2, counterexample: constructing `AuthorizationError` with no
message does not yield the spec's default text "An error occurred during
the authorization flow." — the source spells it "occured". -/
theorem c2_counterexample :
    (AuthorizationError.make (OAuth2Error.make "access_denied" none) none).message
      ≠ "An error occurred during the authorization flow." := by
  decide

/-- Claim C2 (amended): for each of the seven Flow-Specific variants,
constructing with no message yields exactly the default text of the
source, where four variants spell "occured" (without the double r). -/
theorem c2_default_messages (cause : OAuth2Error) :
    (DiscoveryError.make none).message
      = "Discovery failed for the OpenID Connect configuration." ∧
    (MissingStateError.make none).message = "The state parameter is missing." ∧
    (InvalidStateError.make none).message = "The state parameter is invalid." ∧
    (AuthorizationError.make cause none).message
      = "An error occured during the authorization flow." ∧
    (AuthorizationCodeGrantRequestError.make none).message
      = "An error occured while preparing or performing the authorization code grant request." ∧
    (AuthorizationCodeGrantError.make cause none).message
      = "An error occured while trying to exchange the authorization code." ∧
    (BackchannelLogoutError.make none).message
      = "An error occured while completing the backchannel logout request." :=
  ⟨rfl, rfl, rfl, rfl, rfl, rfl, rfl⟩

/-- Claim C3: the constructors of `AuthorizationError` and
`AuthorizationCodeGrantError` require a cause and store exactly the
`OAuth2Error` value passed at construction, unmodified. -/
theorem c3_cause_preserved (cause : OAuth2Error) (message : Option String) :
    (AuthorizationError.make cause message).cause = cause ∧
    (AuthorizationCodeGrantError.make cause message).cause = cause :=
  ⟨rfl, rfl⟩

/-- Claim C4, counterexample: constructing `OAuth2Error` with message
absent does not yield the spec's sentence "An error occurred while
interacting with the authorization server." — the source spells it
"occured". -/
theorem c4_counterexample :
    (OAuth2Error.make "server_error" none).message
      ≠ "An error occurred while interacting with the authorization server." := by
  decide

/-- Claim C4 (amended): constructing `OAuth2Error` with message absent
yields exactly "An error occured while interacting with the authorization
server." (spelled as in the source), and constructing it with both code
and message supplied stores both unchanged. -/
theorem c4_provider_error_defaults (code message : String) :
    (OAuth2Error.make code none).message
      = "An error occured while interacting with the authorization server." ∧
    (OAuth2Error.make code (some message)).code = code ∧
    (OAuth2Error.make code (some message)).message = message :=
  ⟨rfl, rfl, rfl⟩

/-- Claim C5: every variant other than the two access-token ones has a
fixed constant code that no constructor argument can influence. -/
theorem c5_fixed_codes (m : Option String) (cause : OAuth2Error) :
    (DiscoveryError.make m).code = "discovery_error" ∧
    (MissingStateError.make m).code = "missing_state" ∧
    (InvalidStateError.make m).code = "invalid_state" ∧
    (AuthorizationError.make cause m).code = "authorization_error" ∧
    (AuthorizationCodeGrantRequestError.make m).code
      = "authorization_code_grant_request_error" ∧
    (AuthorizationCodeGrantError.make cause m).code
      = "authorization_code_grant_error" ∧
    (BackchannelLogoutError.make m).code = "backchannel_logout_error" :=
  ⟨rfl, rfl, rfl, rfl, rfl, rfl, rfl⟩

/-- Claim C6, counterexample: the `AccessTokenError` constructor accepts a
code outside the closed enumeration and the resulting instance carries it. -/
theorem c6_counterexample :
    (AccessTokenError.make "not_in_enumeration" "m" none).code
      = "not_in_enumeration" ∧
    "not_in_enumeration" ≠ "missing_session" ∧
    "not_in_enumeration" ≠ "missing_refresh_token" ∧
    "not_in_enumeration" ≠ "failed_to_refresh_token" := by
  refine ⟨rfl, ?_, ?_, ?_⟩ <;> decide

/-- Claim C6 (amended): the enum types define the closed code sets, and
every enum member's value lies in its set, but the constructors take the
code as an arbitrary string and store it unchanged, so instances can
carry codes outside the enumeration. -/
theorem c6_code_not_restricted (code message : String)
    (cause : Option OAuth2Error) :
    (AccessTokenError.make code message cause).code = code ∧
    (AccessTokenForConnectionError.make code message cause).code = code ∧
    (∀ c : AccessTokenErrorCode,
      c.toString = "missing_session" ∨ c.toString = "missing_refresh_token" ∨
      c.toString = "failed_to_refresh_token") ∧
    (∀ c : AccessTokenForConnectionErrorCode,
      c.toString = "missing_session" ∨ c.toString = "missing_refresh_token" ∨
      c.toString = "failed_to_exchange_refresh_token") := by
  refine ⟨rfl, rfl, ?_, ?_⟩
  · intro c
    cases c <;> simp [AccessTokenErrorCode.toString]
  · intro c
    cases c <;> simp [AccessTokenForConnectionErrorCode.toString]

/-- Claim C7, counterexample: constructing `OAuth2Error` with the empty
string as code is not rejected — the constructor is total and the
resulting instance carries the empty code. -/
theorem c7_counterexample :
    (OAuth2Error.make "" (some "msg")).code = "" ∧
    (OAuth2Error.make "" (some "msg")).message = "msg" ∧
    (OAuth2Error.make "" (some "msg")).name = "OAuth2Error" :=
  ⟨rfl, rfl, rfl⟩

/-- Claim C7 (amended): the `OAuth2Error` constructor performs no
validation on `code` at all — every string, the empty string included, is
accepted and stored unchanged, and construction always succeeds. -/
theorem c7_no_code_validation (code : String) (message : Option String) :
    (OAuth2Error.make code message).code = code ∧
    (OAuth2Error.make code message).name = "OAuth2Error" :=
  ⟨rfl, rfl⟩

/-- Claim C8: for each of the seven Flow-Specific variants, an explicit
message is stored exactly while the fixed code, the name, and (where
present) the cause are unaffected. -/
theorem c8_message_override (m : String) (cause : OAuth2Error) :
    ((DiscoveryError.make (some m)).message = m ∧
      (DiscoveryError.make (some m)).code = "discovery_error") ∧
    ((MissingStateError.make (some m)).message = m ∧
      (MissingStateError.make (some m)).code = "missing_state") ∧
    ((InvalidStateError.make (some m)).message = m ∧
      (InvalidStateError.make (some m)).code = "invalid_state") ∧
    ((AuthorizationError.make cause (some m)).message = m ∧
      (AuthorizationError.make cause (some m)).code = "authorization_error" ∧
      (AuthorizationError.make cause (some m)).cause = cause) ∧
    ((AuthorizationCodeGrantRequestError.make (some m)).message = m ∧
      (AuthorizationCodeGrantRequestError.make (some m)).code
        = "authorization_code_grant_request_error") ∧
    ((AuthorizationCodeGrantError.make cause (some m)).message = m ∧
      (AuthorizationCodeGrantError.make cause (some m)).code
        = "authorization_code_grant_error" ∧
      (AuthorizationCodeGrantError.make cause (some m)).cause = cause) ∧
    ((BackchannelLogoutError.make (some m)).message = m ∧
      (BackchannelLogoutError.make (some m)).code = "backchannel_logout_error") :=
  ⟨⟨rfl, rfl⟩, ⟨rfl, rfl⟩, ⟨rfl, rfl⟩, ⟨rfl, rfl, rfl⟩, ⟨rfl, rfl⟩,
    ⟨rfl, rfl, rfl⟩, ⟨rfl, rfl⟩⟩

/-- Claim C10: for every variant with an optional message, passing the
empty string as an explicit message yields the empty message, not the
documented default — the default applies only when the argument is
absent (`none`, modelling undefined or null under nullish coalescing). -/
theorem c10_empty_string_message (cause : OAuth2Error) :
    (OAuth2Error.make "c" (some "")).message = "" ∧
    (OAuth2Error.make "c" (some "")).message ≠ (OAuth2Error.make "c" none).message ∧
    (DiscoveryError.make (some "")).message = "" ∧
    (DiscoveryError.make (some "")).message ≠ (DiscoveryError.make none).message ∧
    (MissingStateError.make (some "")).message = "" ∧
    (InvalidStateError.make (some "")).message = "" ∧
    (AuthorizationError.make cause (some "")).message = "" ∧
    (AuthorizationCodeGrantRequestError.make (some "")).message = "" ∧
    (AuthorizationCodeGrantError.make cause (some "")).message = "" ∧
    (BackchannelLogoutError.make (some "")).message = "" := by
  refine ⟨rfl, ?_, rfl, ?_, rfl, rfl, rfl, rfl, rfl, rfl⟩ <;> decide
